import Mathlib

/-!
Verification of the snaprecon target-processing pipeline
(`src/snaprecon/browser.py`, with data model from `src/snaprecon/models.py`
and configuration bounds from `src/snaprecon/config.py`).

The Python code is asynchronous and effectful.  We embed it shallowly:

* Every interaction with the outside world (Playwright navigation, page
  title fetch, screenshot write, the filesystem, wall-clock durations,
  external task cancellation) is an input supplied by an *environment*
  record.  The embedded functions are pure functions of the environment,
  the configuration and the input targets.
* Timeouts: `asyncio.wait_for(op, timeout)` raises `TimeoutError` exactly
  when `op` does not complete within the bound.  We model the duration an
  operation would take as an environment field (in milliseconds) and
  derive the timeout by comparison with the cap that the source passes to
  `wait_for`.  The source writes caps in float seconds
  (`5.0`, `10.0`, `timeout_ms / 1000.0 + 10`,
  `timeout_ms / 1000.0 * len(targets) + 60`); we use the exact
  millisecond values (`5000`, `10000`, `timeout_ms + 10000`,
  `timeout_ms * n + 60000`).
* Exceptions are modelled by explicit outcome constructors; a function
  that can let an exception escape returns a sum-like result type.

Python-semantics facts the embedding relies on (all for CPython ≥ 3.8;
`setup.py` requires `python_requires=">=3.11"`):

* `asyncio.CancelledError` derives from `BaseException`, not `Exception`,
  so `except Exception` does not catch it and
  `isinstance(result, Exception)` is `False` for it.
* `asyncio.gather(..., return_exceptions=True)` places a child's
  exception — including a `CancelledError` from a cancelled child — into
  the result list at the child's position.
* A call of an `async def` function produces a coroutine object; coroutine
  objects have no `done` or `cancel` attribute (those are `Task`/`Future`
  methods).  In `screenshot_many` the local list `tasks` holds coroutine
  objects (`gather` wraps them in Tasks internally), so the cleanup loop
  `for task in tasks: if not task.done(): ...` in the
  `except asyncio.TimeoutError` handler raises `AttributeError` on its
  first iteration whenever the list is non-empty.
* Reading a missing field on a pydantic v2 `BaseModel` raises
  `AttributeError`.  `AppConfig` declares no `proxy` field and nothing
  assigns one, so `self.config.proxy` in `BrowserManager.__aenter__`
  (browser.py 41) raises on every call, before the browser launch at
  line 44.
* An exception raised in a `finally` block replaces the `try` body's
  pending return value and is not caught by that same `try` statement's
  `except` clauses.  So when `await page.close()` (browser.py 228) raises
  after a completed capture, the job's returned Target is discarded and
  the exception escapes to `gather` — while the capture's in-place
  mutations of the shared Target object (populated metadata) remain, and
  the result loop then sets `.error` on that same object.
-/

namespace SnapRecon

/-! ## Data model (`models.py`) -/

/-- `Error` model (`models.py` 13–20): message plus optional code.
The `details` dict is always `None` in the core and is omitted. -/
structure Error where
  message : String
  code : Option String := none
deriving Repr, DecidableEq

/-- `Metadata` model (`models.py` 23–33).  Every field is `Optional` with
default `None`; paths are modelled as strings. -/
structure Metadata where
  title : Option String := none
  status_code : Option Nat := none
  final_url : Option String := none
  screenshot_path : Option String := none
  screenshot_size : Option Nat := none
  load_time_ms : Option Nat := none
deriving Repr, DecidableEq

/-- `Target` model (`models.py` 46–72).  Note that `metadata` is NOT
optional: it is a `Metadata` object with `default_factory=Metadata`, i.e.
a fresh empty `Metadata` — only `error` is `Optional`.  The `analysis`
field is set only by the out-of-scope analysis stage and is omitted. -/
structure Target where
  host : String
  domain : String
  subdomain : Option String := none
  metadata : Metadata := {}
  error : Option Error := none
deriving Repr, DecidableEq

/-- The `AppConfig` fields the browser pipeline reads (`config.py` 14–56).
`run_dir` is set by `from_cli` before the pipeline runs. -/
structure AppConfig where
  run_dir : String
  user_agent : String := "Mozilla/5.0 (Windows NT 10.0; Win64; x64) AppleWebKit/537.36"
  timeout_ms : Nat := 30000
  fullpage : Bool := false
  concurrency : Nat := 5
  headless : Bool := true
deriving Repr, DecidableEq

/-- The pydantic field constraints on the fields the pipeline uses:
`timeout_ms ≥ 1000` (`config.py` 28) and `1 ≤ concurrency ≤ 20`
(`config.py` 33). -/
def AppConfig.valid (cfg : AppConfig) : Prop :=
  1000 ≤ cfg.timeout_ms ∧ 1 ≤ cfg.concurrency ∧ cfg.concurrency ≤ 20

/-! ## Environment of one navigation attempt (`try_urls`, browser.py 75–139) -/

/-- Outcome of `safe_goto(url, ...)` (browser.py 81–92): the navigation
either times out (`asyncio.TimeoutError`), raises some other exception
(e.g. `net::ERR_ABORTED`), or returns — with a response object carrying a
status, or with `None` (Playwright may return no response). -/
inductive GotoOutcome where
  | timeout
  | exn (msg : String)
  | ok (response : Option Nat)
deriving Repr, DecidableEq

/-- Outcome of `safe_wait_for_load_state("networkidle", 5000)`
(browser.py 94–103, called at 120): success, `asyncio.TimeoutError`
(swallowed by the handler at 121–122), or another exception (which
escapes to the per-URL `except Exception` at 129 and skips the URL). -/
inductive IdleOutcome where
  | ok
  | timeout
  | exn (msg : String)
deriving Repr, DecidableEq

/-- What the network/browser does for each URL the loop may try. -/
structure PageEnv where
  goto : String → GotoOutcome
  idle : String → IdleOutcome

/-- browser.py 117: a response is "working" when it exists and
`status < 400 or status in (401, 403)`. -/
def isWorkingStatus (s : Nat) : Bool :=
  decide (s < 400) || s == 401 || s == 403

def httpsUrl (host : String) : String := "https://" ++ host

def httpUrl (host : String) : String := "http://" ++ host

/-- browser.py 104–107: `urls_to_try = [f"https://{host}", f"http://{host}"]`. -/
def urlsToTry (host : String) : List String :=
  [httpsUrl host, httpUrl host]

/-- The `for url in urls_to_try` loop of browser.py 109–136.  A URL is
returned when navigation yields a working response and the subsequent
network-idle wait does not raise a non-timeout exception (a timeout there
is swallowed, browser.py 121–122); every other case hits `continue`. -/
def tryUrlsLoop (env : PageEnv) : List String → Option (String × Nat)
  | [] => none
  | url :: rest =>
    match env.goto url with
    | GotoOutcome.ok (some s) =>
      if isWorkingStatus s then
        match env.idle url with
        | IdleOutcome.exn _ => tryUrlsLoop env rest
        | _ => some (url, s)
      else tryUrlsLoop env rest
    | GotoOutcome.ok none => tryUrlsLoop env rest
    | GotoOutcome.timeout => tryUrlsLoop env rest
    | GotoOutcome.exn _ => tryUrlsLoop env rest

/-- `try_urls` (browser.py 75–139).  If no URL is accepted the source
returns `urls_to_try[-1], 500` (browser.py 139); with the fixed
two-element list that is `http://{host}`. -/
def try_urls (env : PageEnv) (host : String) : String × Nat :=
  match tryUrlsLoop env (urlsToTry host) with
  | some r => r
  | none => (httpUrl host, 500)

/-- An attempt at `url` is accepted by the loop: navigation returned a
working response and the network-idle wait did not raise a non-timeout
exception. -/
def attemptAccepted (env : PageEnv) (url : String) : Bool :=
  match env.goto url with
  | GotoOutcome.ok (some s) =>
    isWorkingStatus s &&
      (match env.idle url with
       | IdleOutcome.exn _ => false
       | _ => true)
  | _ => false

/-! ## Environment of one capture (`screenshot_target`, browser.py 142–196) -/

/-- Cap passed to `asyncio.wait_for(page.title(), timeout=5.0)`
(browser.py 150), in milliseconds. -/
def titleFetchCapMs : Nat := 5000

/-- Cap passed to `asyncio.wait_for(page.screenshot(...), timeout=10.0)`
(browser.py 160–166), in milliseconds. -/
def screenshotCapMs : Nat := 10000

/-- Environment of a single `screenshot_target` run: what the page, the
browser and the filesystem would do at each step. -/
structure CaptureEnv where
  page : PageEnv
  /-- How long `page.title()` would take to settle. -/
  titleDurationMs : Nat := 0
  /-- What `page.title()` settles to if awaited: a title, or an
  exception message. -/
  titleResult : Except String String := Except.ok ""
  /-- `screenshot_path.parent.mkdir(exist_ok=True)` (browser.py 157)
  raises with this message, if `some`. -/
  mkdirRaises : Option String := none
  /-- How long `page.screenshot(...)` would take to settle. -/
  shotDurationMs : Nat := 0
  /-- What `page.screenshot(...)` settles to if awaited: `none` = the
  file is written, `some m` = it raises with message `m`. -/
  shotRaises : Option String := none
  /-- `screenshot_path.exists()` at browser.py 176. -/
  fileExists : Bool := true
  /-- `screenshot_path.stat().st_size` when the file exists. -/
  fileSize : Nat := 0

/-- Result of the title step (browser.py 149–153): if the 5-second cap is
exceeded, `wait_for` raises `TimeoutError`, which is caught and replaced
by the literal placeholder; otherwise the underlying result (a title, or
an exception that will reach the outer handler) surfaces. -/
def fetchTitle (env : CaptureEnv) : Except String String :=
  if titleFetchCapMs < env.titleDurationMs then Except.ok "Title timeout"
  else env.titleResult

/-- browser.py 156: `config.run_dir / "screenshots" / f"{target.host}.png"`. -/
def screenshotPathFor (cfg : AppConfig) (host : String) : String :=
  cfg.run_dir ++ "/screenshots/" ++ host ++ ".png"

/-- Error attached by the outer `except Exception` handler
(browser.py 189–194). -/
def screenshotFailedError (m : String) : Error :=
  { message := "Failed to take screenshot: " ++ m
    code := some "SCREENSHOT_FAILED" }

/-- Error attached when the screenshot write exceeds its 10-second cap
(browser.py 167–173). -/
def captureTimeoutError : Error :=
  { message := "Screenshot capture timed out"
    code := some "SCREENSHOT_CAPTURE_TIMEOUT" }

/-- `screenshot_target` (browser.py 142–196).  Mutation of the Python
`target` is modelled as a record update; every path returns the target.
`try_urls` is total (both of its exception handlers `continue`), so the
outer `except Exception` can only fire on the title fetch, the `mkdir`,
or the screenshot write. -/
def screenshot_target (env : CaptureEnv) (cfg : AppConfig) (t : Target) : Target :=
  let resolved := try_urls env.page t.host
  match fetchTitle env with
  | Except.error m => { t with error := some (screenshotFailedError m) }
  | Except.ok title =>
    match env.mkdirRaises with
    | some m => { t with error := some (screenshotFailedError m) }
    | none =>
      if screenshotCapMs < env.shotDurationMs then
        { t with error := some captureTimeoutError }
      else
        match env.shotRaises with
        | some m => { t with error := some (screenshotFailedError m) }
        | none =>
          let size := if env.fileExists then env.fileSize else 0
          { t with metadata :=
            { title := some title
              status_code := some resolved.2
              final_url := some resolved.1
              screenshot_path := some (screenshotPathFor cfg t.host)
              screenshot_size := some size
              load_time_ms := none } }

/-! ## Per-job wrapper (`screenshot_with_semaphore`, browser.py 203–228) -/

/-- Per-job `wait_for` bound (browser.py 211):
`config.timeout_ms / 1000.0 + 10` seconds, in milliseconds. -/
def perJobTimeoutMs (cfg : AppConfig) : Nat := cfg.timeout_ms + 10000

/-- Error attached when the per-job `wait_for` expires (browser.py 213–219). -/
def screenshotTimeoutError (cfg : AppConfig) : Error :=
  { message := "Screenshot timeout after " ++ toString cfg.timeout_ms ++ "ms"
    code := some "SCREENSHOT_TIMEOUT" }

/-- Error attached by the job's `except Exception` handler
(browser.py 220–226). -/
def screenshotErrorOf (m : String) : Error :=
  { message := "Screenshot failed: " ++ m
    code := some "SCREENSHOT_ERROR" }

/-- How one job's control flow goes around its capture work.
`screenshot_with_semaphore` acquires the gate, enters a fresh
`BrowserManager` context, creates a page, and only then reaches its
`try` statement; the `finally: await page.close()` (browser.py 228) runs
after the body on every body exit.  On the source as it stands,
`BrowserManager.__aenter__` always raises before the launch (see
`browserManagerEnter`), so every actual run takes the `setupExn` path;
the remaining constructors model the body's own code paths. -/
inductive JobInterference where
  /-- The `try` body runs to its own conclusion (subject only to the
  per-job `wait_for`). -/
  | runsToEnd
  /-- The job's task is cancelled externally while in flight, before the
  body mutates the target.  `asyncio.CancelledError` derives from
  `BaseException` (CPython ≥ 3.8), so neither
  `except asyncio.TimeoutError` nor `except Exception`
  (browser.py 213, 220) catches it and it escapes the job. -/
  | cancelled
  /-- `BrowserManager.__aenter__` raises before the browser is launched —
  on this code, the `self.config.proxy` attribute access at browser.py 41
  does so on every call, since `AppConfig` declares no `proxy` field.
  The body never runs; the exception escapes the job. -/
  | setupExn (msg : String)
  /-- `create_page` (browser.py 206) raises, inside the `BrowserManager`
  context but before the `try`.  The body never runs; the exception
  escapes the job. -/
  | createPageExn (msg : String)
  /-- The awaited call surfaces a plain `Exception` within the per-job
  bound; caught at browser.py 220–226, which sets `SCREENSHOT_ERROR` on
  the target in place and returns it. -/
  | innerExn (msg : String)
deriving Repr, DecidableEq

/-- Environment of one job. -/
structure JobEnv where
  interference : JobInterference := JobInterference.runsToEnd
  capture : CaptureEnv
  /-- How long `screenshot_target(...)` would take to settle. -/
  jobDurationMs : Nat := 0
  /-- `await page.close()` in the `finally` (browser.py 228) raises with
  this message, if `some`.  The `finally` belongs to the same `try`
  statement as the handlers at browser.py 213/220, so its exception is
  not caught there: it discards the body's returned value and escapes
  the job — while the body's in-place mutations of the target stand.
  Consulted when the body ran (`runsToEnd` / `innerExn`); in the other
  phases the escaping event is the one named by the phase. -/
  closeRaises : Option String := none

/-- What `asyncio.gather(..., return_exceptions=True)` records for one
job: the returned value (the shared `Target` object itself), an
`Exception` instance, or a `CancelledError` instance (which is *not* an
`Exception`). -/
inductive GatherResult where
  | value
  | exn (msg : String)
  | cancelledErr
deriving Repr, DecidableEq

/-- State of the shared `target` object after the `try`/`except` body of
the job (browser.py 207–226): the body mutates `target` in place.  The
per-job timeout fires only if `screenshot_target` has not returned by
the bound; `screenshot_target` performs no await between mutating the
target and returning, so on expiry the target is still unmutated and
the handler sets `SCREENSHOT_TIMEOUT` on it. -/
def jobBodyTarget (cfg : AppConfig) (env : JobEnv) (t : Target) : Target :=
  match env.interference with
  | JobInterference.innerExn m => { t with error := some (screenshotErrorOf m) }
  | _ =>
    if perJobTimeoutMs cfg < env.jobDurationMs then
      { t with error := some (screenshotTimeoutError cfg) }
    else
      screenshot_target env.capture cfg t

/-- `screenshot_with_semaphore` (browser.py 203–228), as the final state
of the shared `target` object paired with what `gather` records for the
job.  When the body ran and `page.close()` then raises in the `finally`,
the body's returned value is discarded and the exception escapes while
the body's in-place mutations stand. -/
def screenshot_with_semaphore (cfg : AppConfig) (env : JobEnv) (t : Target) :
    Target × GatherResult :=
  match env.interference with
  | JobInterference.cancelled => (t, GatherResult.cancelledErr)
  | JobInterference.setupExn m => (t, GatherResult.exn m)
  | JobInterference.createPageExn m => (t, GatherResult.exn m)
  | JobInterference.innerExn _ =>
    match env.closeRaises with
    | some m => (jobBodyTarget cfg env t, GatherResult.exn m)
    | none => (jobBodyTarget cfg env t, GatherResult.value)
  | JobInterference.runsToEnd =>
    match env.closeRaises with
    | some m => (jobBodyTarget cfg env t, GatherResult.exn m)
    | none => (jobBodyTarget cfg env t, GatherResult.value)

/-! ## Batch (`screenshot_many`, browser.py 199–269) -/

/-- Overall batch bound (browser.py 235):
`config.timeout_ms / 1000.0 * len(targets) + 60` seconds, in
milliseconds. -/
def overallTimeoutMs (cfg : AppConfig) (targetCount : Nat) : Nat :=
  cfg.timeout_ms * targetCount + 60000

/-- An element of the list `screenshot_many` returns.  The result loop
(browser.py 257–267) appends `targets[i]` with a `PROCESSING_ERROR` when
`isinstance(result, Exception)`, and otherwise appends `result` as-is —
for a cancelled child that is the raw `CancelledError` object, not a
`Target`. -/
inductive BatchEntry where
  | tgt (t : Target)
  | cancelledObj
deriving Repr, DecidableEq

/-- Error attached in the result loop (browser.py 259–264). -/
def processingError (m : String) : Error :=
  { message := "Processing failed: " ++ m
    code := some "PROCESSING_ERROR" }

/-- The result loop of browser.py 257–267, for one slot.  Its input is
the pair produced by `screenshot_with_semaphore`: the state of the
shared `targets[i]` object and what `gather` recorded.  When `gather`
recorded an `Exception`, line 261 sets `.error` on `targets[i]` — the
*same object* the job body may already have mutated (populated metadata
included) — and appends it; when it recorded the returned value, that
value is `targets[i]` itself; a `CancelledError` fails the
`isinstance(result, Exception)` test and the raw object is appended. -/
def recordResult (st : Target × GatherResult) : BatchEntry :=
  match st.2 with
  | GatherResult.value => BatchEntry.tgt st.1
  | GatherResult.exn m => BatchEntry.tgt { st.1 with error := some (processingError m) }
  | GatherResult.cancelledErr => BatchEntry.cancelledObj

/-- `screenshot_many` either returns a list or lets an exception escape. -/
inductive BatchOutcome where
  | ok (entries : List BatchEntry)
  | raised (msg : String)
deriving Repr, DecidableEq

/-- The exception escaping the `except asyncio.TimeoutError` handler of
browser.py 240–254: `tasks` holds coroutine objects (browser.py 231), and
coroutine objects have no `done` method, so `task.done()` at
browser.py 244 raises on the first loop iteration. -/
def attributeErrorMsg : String :=
  "AttributeError: coroutine object has no attribute done"

/-- `screenshot_many` (browser.py 199–269).  `batchDurationMs` is how
long `gather` over all jobs would take; if it exceeds the overall bound,
`wait_for` raises `TimeoutError` and control enters the handler at
browser.py 240, whose cleanup loop raises `AttributeError` whenever
`tasks` is non-empty (with no targets the loops are empty and the
handler returns `targets`, i.e. `[]` — though with no targets `gather`
finishes immediately and the bound cannot in fact be exceeded). -/
def screenshot_many (cfg : AppConfig) (ts : List Target) (envs : List JobEnv)
    (batchDurationMs : Nat) : BatchOutcome :=
  if overallTimeoutMs cfg ts.length < batchDurationMs then
    match ts with
    | [] => BatchOutcome.ok []
    | _ :: _ => BatchOutcome.raised attributeErrorMsg
  else
    BatchOutcome.ok
      (List.zipWith (fun t e => recordResult (screenshot_with_semaphore cfg e t)) ts envs)

/-! ## Browser lifecycle (`BrowserManager`, browser.py 21–55)

`screenshot_with_semaphore` opens `async with BrowserManager(config)` in
its own body (browser.py 205), so the browser lifecycle is per job, not
per batch — and on this code no launch ever happens, because
`__aenter__` fails before reaching it. -/

inductive BrowserEvent where
  | launch
  | close
deriving Repr, DecidableEq

/-- Outcome of `BrowserManager.__aenter__` (browser.py 29–48). -/
inductive EnterOutcome where
  | launched
  | raisedBeforeLaunch (msg : String)
deriving Repr, DecidableEq

/-- `BrowserManager.__aenter__` (browser.py 29–48): after
`async_playwright().start()`, line 41 reads `self.config.proxy`.
`AppConfig` (config.py 14–56) declares no `proxy` field and no code path
assigns one (`from_cli` drops unknown keys, config.py 273), so under
pydantic v2 this attribute access raises `AttributeError` on every call —
before `chromium.launch` at browser.py 44.  No call of `__aenter__`
ever reaches the launch. -/
def browserManagerEnter (_cfg : AppConfig) : EnterOutcome :=
  EnterOutcome.raisedBeforeLaunch
    "AttributeError: AppConfig object has no attribute proxy"

/-- Browser events of one job.  Each job enters its own
`async with BrowserManager(config)`; had `__aenter__` reached the
launch, `__aexit__` (browser.py 50–55) would close on every exit path of
the block — but `__aenter__` raises before the launch on every call, so
the block is never entered and no job emits any event. -/
def jobBrowserEvents (cfg : AppConfig) : List BrowserEvent :=
  match browserManagerEnter cfg with
  | EnterOutcome.launched => [BrowserEvent.launch, BrowserEvent.close]
  | EnterOutcome.raisedBeforeLaunch _ => []

/-- Number of browser-engine processes launched over a whole batch: one
`BrowserManager` entry per target job. -/
def batchBrowserLaunchCount (cfg : AppConfig) (ts : List Target) : Nat :=
  (ts.map (fun _ => (jobBrowserEvents cfg).count BrowserEvent.launch)).sum

/-! ## Admission gate (`asyncio.Semaphore`, browser.py 201–204)

browser.py 201 builds `asyncio.Semaphore(config.concurrency)`; each job
wraps its whole body in `async with semaphore` (browser.py 204), which
acquires a slot on entry and releases it on every exit path (return,
exception, cancellation).  We model the gate as a transition system over
the list of job ids currently holding a slot: an acquire is only enabled
while fewer than `cap` jobs hold a slot (the semaphore suspends the
caller otherwise), and a release by a holder is always enabled. -/

def semaphoreCapacity (cfg : AppConfig) : Nat := cfg.concurrency

inductive SemEvent where
  | acquire (j : Nat)
  | release (j : Nat)
deriving Repr, DecidableEq

inductive GateStep (cap : Nat) : List Nat → SemEvent → List Nat → Prop where
  | acquire (j : Nat) (holders : List Nat) :
      j ∉ holders → holders.length < cap →
      GateStep cap holders (SemEvent.acquire j) (j :: holders)
  | release (j : Nat) (holders : List Nat) :
      j ∈ holders →
      GateStep cap holders (SemEvent.release j) (holders.erase j)

inductive GateReachable (cap : Nat) : List Nat → Prop where
  | start : GateReachable cap []
  | step {s s' : List Nat} {e : SemEvent} :
      GateReachable cap s → GateStep cap s e s' → GateReachable cap s'

/-! ## Concrete fixtures used by closed theorems -/

def cfgEx : AppConfig := { run_dir := "runs/20250101_000000" }

def targetA : Target := { host := "a.example.com", domain := "example.com" }

def targetB : Target := { host := "b.example.com", domain := "example.com" }

def targetC : Target := { host := "c.example.com", domain := "example.com" }

/-- A network where every navigation returns HTTP 200 at once. -/
def pageEnvHttpsOk : PageEnv :=
  { goto := fun _ => GotoOutcome.ok (some 200)
    idle := fun _ => IdleOutcome.ok }

/-- A network where HTTPS times out for `b.example.com` but HTTP answers
200, and the network-idle wait then times out (non-fatally). -/
def pageEnvHttpOnly : PageEnv :=
  { goto := fun u =>
      if u = httpUrl "b.example.com" then GotoOutcome.ok (some 200)
      else GotoOutcome.timeout
    idle := fun _ => IdleOutcome.timeout }

def captureEnvOk : CaptureEnv :=
  { page := pageEnvHttpsOk
    titleDurationMs := 100
    titleResult := Except.ok "Example Domain"
    shotDurationMs := 1000
    fileExists := true
    fileSize := 4096 }

def captureEnvTitleSlow : CaptureEnv := { captureEnvOk with titleDurationMs := 6000 }

def captureEnvShotSlow : CaptureEnv := { captureEnvOk with shotDurationMs := 20000 }

def captureEnvNoFile : CaptureEnv := { captureEnvOk with fileExists := false }

def jobEnvOk : JobEnv := { capture := captureEnvOk, jobDurationMs := 2000 }

def jobEnvCancelled : JobEnv := { jobEnvOk with interference := JobInterference.cancelled }

/-- A job whose capture never settles within the per-job bound. -/
def jobEnvHang : JobEnv := { jobEnvOk with jobDurationMs := 10000000 }

/-- HTTPS fails for `b.example.com` but HTTP works; otherwise like
`captureEnvOk`. -/
def captureEnvHttpOnly : CaptureEnv := { captureEnvOk with page := pageEnvHttpOnly }

theorem tryUrlsLoop_cons_accepted (env : PageEnv) (url : String) (rest : List String)
    (s : Nat) (hg : env.goto url = GotoOutcome.ok (some s))
    (hw : isWorkingStatus s = true)
    (hi : ∀ m, env.idle url ≠ IdleOutcome.exn m) :
    tryUrlsLoop env (url :: rest) = some (url, s) := by
  cases hi2 : env.idle url with
  | ok => simp [tryUrlsLoop, hg, hw, hi2]
  | timeout => simp [tryUrlsLoop, hg, hw, hi2]
  | exn m => exact absurd hi2 (hi m)

theorem tryUrlsLoop_cons_rejected (env : PageEnv) (url : String) (rest : List String)
    (h : attemptAccepted env url = false) :
    tryUrlsLoop env (url :: rest) = tryUrlsLoop env rest := by
  unfold attemptAccepted at h
  cases hg : env.goto url with
  | timeout => simp [tryUrlsLoop, hg]
  | exn m => simp [tryUrlsLoop, hg]
  | ok resp =>
    cases resp with
    | none => simp [tryUrlsLoop, hg]
    | some s =>
      rw [hg] at h
      simp only at h
      cases hw : isWorkingStatus s with
      | false => simp [tryUrlsLoop, hg, hw]
      | true =>
        rw [hw] at h
        cases hi : env.idle url with
        | ok => rw [hi] at h; simp at h
        | timeout => rw [hi] at h; simp at h
        | exn m => simp [tryUrlsLoop, hg, hw, hi]

theorem try_urls_first_accepted (env : PageEnv) (host : String) (s : Nat)
    (hg : env.goto (httpsUrl host) = GotoOutcome.ok (some s))
    (hw : isWorkingStatus s = true)
    (hi : ∀ m, env.idle (httpsUrl host) ≠ IdleOutcome.exn m) :
    try_urls env host = (httpsUrl host, s) := by
  unfold try_urls urlsToTry
  rw [tryUrlsLoop_cons_accepted env _ _ s hg hw hi]

theorem try_urls_second_accepted (env : PageEnv) (host : String) (s : Nat)
    (h1 : attemptAccepted env (httpsUrl host) = false)
    (hg : env.goto (httpUrl host) = GotoOutcome.ok (some s))
    (hw : isWorkingStatus s = true)
    (hi : ∀ m, env.idle (httpUrl host) ≠ IdleOutcome.exn m) :
    try_urls env host = (httpUrl host, s) := by
  unfold try_urls urlsToTry
  rw [tryUrlsLoop_cons_rejected env _ _ h1,
    tryUrlsLoop_cons_accepted env _ _ s hg hw hi]

theorem try_urls_none_accepted (env : PageEnv) (host : String)
    (h1 : attemptAccepted env (httpsUrl host) = false)
    (h2 : attemptAccepted env (httpUrl host) = false) :
    try_urls env host = (httpUrl host, 500) := by
  unfold try_urls urlsToTry
  rw [tryUrlsLoop_cons_rejected env _ _ h1, tryUrlsLoop_cons_rejected env _ _ h2]
  rfl

/-- Each slot of a returned batch is a function of that slot's own target
and job environment only. -/
theorem screenshot_many_slot (cfg : AppConfig) (ts : List Target) (envs : List JobEnv)
    (d : Nat) (entries : List BatchEntry)
    (hok : screenshot_many cfg ts envs d = BatchOutcome.ok entries)
    (i : Nat) (hi : i < ts.length) (hie : i < envs.length) (hient : i < entries.length) :
    entries[i] = recordResult (screenshot_with_semaphore cfg envs[i] ts[i]) := by
  unfold screenshot_many at hok
  by_cases hd : overallTimeoutMs cfg ts.length < d
  · rw [if_pos hd] at hok
    cases ts with
    | nil => exact absurd hi (by simp)
    | cons a as => simp at hok
  · rw [if_neg hd] at hok
    have hent : List.zipWith
        (fun t e => recordResult (screenshot_with_semaphore cfg e t)) ts envs = entries := by
      injection hok
    subst hent
    rw [List.getElem_zipWith]

/-- Any reachable gate state has at most `cap` holders. -/
theorem gateReachable_length_le (cap : Nat) (s : List Nat)
    (h : GateReachable cap s) : s.length ≤ cap := by
  induction h with
  | start => exact Nat.zero_le cap
  | step _ hstep ih =>
    cases hstep with
    | acquire j holders hj hlen => exact hlen
    | release j holders hj =>
      rw [List.length_erase_of_mem hj]
      exact le_trans (Nat.sub_le _ _) ih

/-! ## Claims -/

/-- C1: the claim says `screenshot_many` never lets an exception out of
its outer boundary, including when the overall batch deadline elapses.
The code violates the deadline part: when the `wait_for` around `gather`
times out, the handler's cleanup loop calls `.done()` on the coroutine
objects stored in `tasks` (browser.py 231, 243–245) and the resulting
`AttributeError` escapes `screenshot_many`.  This theorem evaluates the
embedded batch at a concrete two-target run whose jobs outlast the
deadline: the batch raises instead of returning a list. -/
theorem screenshot_many_escapes_on_deadline :
    screenshot_many cfgEx [targetA, targetB] [jobEnvHang, jobEnvHang]
      (overallTimeoutMs cfgEx 2 + 1) = BatchOutcome.raised attributeErrorMsg := rfl

/-- C3: the deadline value does equal
`timeout_ms × target_count + 60 s` (browser.py 235), but the claimed
elapse behaviour (cancel still-running jobs, await all jobs, back-fill
empty slots with `OVERALL_TIMEOUT`, keep completed outcomes) is not what
the code does: the handler's first action on any non-empty batch,
`task.done()` on a coroutine object, raises `AttributeError`, so no job
is cancelled or awaited, no slot is back-filled, and the batch raises.
Evaluated here on a concrete three-target run past its deadline. -/
theorem overall_deadline_behavior_diverges :
    overallTimeoutMs cfgEx 3 = cfgEx.timeout_ms * 3 + 60000 ∧
    screenshot_many cfgEx [targetA, targetB, targetC]
      [jobEnvHang, jobEnvHang, jobEnvHang] (overallTimeoutMs cfgEx 3 + 1)
      = BatchOutcome.raised attributeErrorMsg := ⟨rfl, rfl⟩

/-- C4: `try_urls` tries `https://{host}` then `http://{host}` in that
fixed order; it returns the first attempted URL with its status when the
navigation response satisfies the working predicate (response present and
status < 400 or ∈ {401, 403}) — a network-idle timeout after acceptance
is non-fatal and the accepted response is still returned (the hypothesis
admits `idle = timeout`); when neither scheme is accepted it returns the
last attempted URL `http://{host}` with sentinel status 500. -/
theorem try_urls_resolution_protocol (env : PageEnv) (host : String) :
    urlsToTry host = [httpsUrl host, httpUrl host] ∧
    (∀ s, env.goto (httpsUrl host) = GotoOutcome.ok (some s) →
      isWorkingStatus s = true →
      (env.idle (httpsUrl host) = IdleOutcome.ok ∨
        env.idle (httpsUrl host) = IdleOutcome.timeout) →
      try_urls env host = (httpsUrl host, s)) ∧
    (attemptAccepted env (httpsUrl host) = false →
      ∀ s, env.goto (httpUrl host) = GotoOutcome.ok (some s) →
      isWorkingStatus s = true →
      (env.idle (httpUrl host) = IdleOutcome.ok ∨
        env.idle (httpUrl host) = IdleOutcome.timeout) →
      try_urls env host = (httpUrl host, s)) ∧
    (attemptAccepted env (httpsUrl host) = false →
      attemptAccepted env (httpUrl host) = false →
      try_urls env host = (httpUrl host, 500)) := by
  refine ⟨rfl, ?_, ?_, ?_⟩
  · intro s hg hw hi
    refine try_urls_first_accepted env host s hg hw ?_
    intro m hm
    rcases hi with h | h <;> rw [hm] at h <;> cases h
  · intro h1 s hg hw hi
    refine try_urls_second_accepted env host s h1 hg hw ?_
    intro m hm
    rcases hi with h | h <;> rw [hm] at h <;> cases h
  · intro h1 h2
    exact try_urls_none_accepted env host h1 h2

theorem try_urls_resolution_protocol_witness :
    try_urls pageEnvHttpOnly "b.example.com" = (httpUrl "b.example.com", 200) :=
  (try_urls_resolution_protocol pageEnvHttpOnly "b.example.com").2.2.1
    (by decide) 200 (by decide) (by decide) (Or.inr (by decide))

/-- C5: each job is wrapped in `wait_for` with bound
`timeout_ms + 10 s`; on expiry the job's target is marked
`SCREENSHOT_TIMEOUT` (the capture, which performs no await between its
mutation and its return, has not touched the target), and each result
slot of a returned batch depends only on that slot's own target and job
environment, so an expired job does not affect or block the other slots. -/
theorem per_job_timeout_marks_and_abandons (cfg : AppConfig) (env : JobEnv)
    (t : Target) (hrun : env.interference = JobInterference.runsToEnd)
    (hlate : perJobTimeoutMs cfg < env.jobDurationMs) :
    perJobTimeoutMs cfg = cfg.timeout_ms + 10000 ∧
    (screenshotTimeoutError cfg).code = some "SCREENSHOT_TIMEOUT" ∧
    (screenshot_with_semaphore cfg env t).1 =
      { t with error := some (screenshotTimeoutError cfg) } ∧
    (env.closeRaises = none →
      screenshot_with_semaphore cfg env t =
        ({ t with error := some (screenshotTimeoutError cfg) }, GatherResult.value)) ∧
    (∀ (ts : List Target) (envs : List JobEnv) (d : Nat)
        (entries : List BatchEntry),
      screenshot_many cfg ts envs d = BatchOutcome.ok entries →
      ∀ i, ∀ hi : i < ts.length, ∀ hie : i < envs.length,
        ∀ hient : i < entries.length,
        entries[i] = recordResult (screenshot_with_semaphore cfg envs[i] ts[i])) := by
  refine ⟨rfl, rfl, ?_, ?_, ?_⟩
  · cases hc : env.closeRaises with
    | some m => simp [screenshot_with_semaphore, hrun, hc, jobBodyTarget, hlate]
    | none => simp [screenshot_with_semaphore, hrun, hc, jobBodyTarget, hlate]
  · intro hc
    simp [screenshot_with_semaphore, hrun, hc, jobBodyTarget, hlate]
  · intro ts envs d entries hok i hi hie hient
    exact screenshot_many_slot cfg ts envs d entries hok i hi hie hient

theorem per_job_timeout_marks_and_abandons_witness :
    screenshot_with_semaphore cfgEx jobEnvHang targetA =
      ({ targetA with error := some (screenshotTimeoutError cfgEx) },
        GatherResult.value) :=
  (per_job_timeout_marks_and_abandons cfgEx jobEnvHang targetA rfl
    (by decide)).2.2.2.1 rfl

/-- C6: inside the capture, a title fetch exceeding the hard 5-second
cap is non-fatal — the literal placeholder "Title timeout" is substituted
and the capture proceeds to metadata — while a screenshot write exceeding
the hard 10-second cap is fatal for the target: error code
`SCREENSHOT_CAPTURE_TIMEOUT` is attached and the capture stops with the
target's metadata untouched. -/
theorem capture_step_timeboxes (cfg : AppConfig) (env : CaptureEnv) (t : Target) :
    titleFetchCapMs = 5000 ∧ screenshotCapMs = 10000 ∧
    (titleFetchCapMs < env.titleDurationMs → env.mkdirRaises = none →
      env.shotDurationMs ≤ screenshotCapMs → env.shotRaises = none →
      (screenshot_target env cfg t).metadata.title = some "Title timeout" ∧
      (screenshot_target env cfg t).error = t.error) ∧
    ((∃ s0, fetchTitle env = Except.ok s0) → env.mkdirRaises = none →
      screenshotCapMs < env.shotDurationMs →
      screenshot_target env cfg t = { t with error := some captureTimeoutError } ∧
      captureTimeoutError.code = some "SCREENSHOT_CAPTURE_TIMEOUT" ∧
      (screenshot_target env cfg t).metadata = t.metadata) := by
  refine ⟨rfl, rfl, ?_, ?_⟩
  · intro hT hk hs hr
    have hft : fetchTitle env = Except.ok "Title timeout" := by
      unfold fetchTitle
      rw [if_pos hT]
    have hns : ¬ screenshotCapMs < env.shotDurationMs := Nat.not_lt.mpr hs
    constructor
    · simp [screenshot_target, hft, hk, hns, hr]
    · simp [screenshot_target, hft, hk, hns, hr]
  · rintro ⟨s0, hT⟩ hk hs
    refine ⟨?_, rfl, ?_⟩
    · simp [screenshot_target, hT, hk, hs]
    · simp [screenshot_target, hT, hk, hs]

theorem capture_step_timeboxes_witness :
    (screenshot_target captureEnvTitleSlow cfgEx targetA).metadata.title =
      some "Title timeout" ∧
    screenshot_target captureEnvShotSlow cfgEx targetA =
      { targetA with error := some captureTimeoutError } :=
  ⟨((capture_step_timeboxes cfgEx captureEnvTitleSlow targetA).2.2.1
      (by decide) rfl (by decide) rfl).1,
   ((capture_step_timeboxes cfgEx captureEnvShotSlow targetA).2.2.2
      ⟨"Example Domain", rfl⟩ rfl (by decide)).1⟩

/-- C7: the admission gate is `asyncio.Semaphore(config.concurrency)`
with the configuration validated to `1 ≤ concurrency ≤ 20`; in every
reachable gate state the number of simultaneous holders is at most
`max(concurrency, 1)`.  Acquisition is only enabled below capacity, and
release (the exit side of `async with semaphore`, taken on success,
failure and cancellation alike) is always enabled for a holder. -/
theorem gate_holders_bounded (cfg : AppConfig)
    (h1 : 1 ≤ cfg.concurrency) (h2 : cfg.concurrency ≤ 20)
    (s : List Nat) (hs : GateReachable (semaphoreCapacity cfg) s) :
    s.length ≤ max cfg.concurrency 1 := by
  have hb := gateReachable_length_le (semaphoreCapacity cfg) s hs
  rw [Nat.max_eq_left h1]
  exact hb

theorem gate_holders_bounded_witness :
    ([3] : List Nat).length ≤ max cfgEx.concurrency 1 :=
  gate_holders_bounded cfgEx (by decide) (by decide) [3]
    (GateReachable.step GateReachable.start
      (GateStep.acquire 3 [] (List.not_mem_nil 3) (by decide)))

/-- C8 counterexample: the claim says exactly one browser-engine process
is used per batch run, launched before any job.  In the code each job
opens its own `async with BrowserManager(config)` (browser.py 205) —
there is no batch-wide browser — and `__aenter__` raises
`AttributeError` at the `self.config.proxy` read (browser.py 41;
`AppConfig` has no `proxy` field) before `chromium.launch` at line 44 on
every call, so a concrete two-target batch launches zero browser
processes, not one. -/
theorem browser_per_batch_counterexample :
    batchBrowserLaunchCount cfgEx [targetA, targetB] = 0 ∧
    batchBrowserLaunchCount cfgEx [targetA, targetB] ≠ 1 := by
  exact ⟨rfl, by decide⟩

/-- C8 amended: no browser-engine process is ever launched.  Each job
enters its own `BrowserManager` context (one per target, not one per
batch), and every entry raises before reaching the launch — the
`self.config.proxy` attribute access fails because `AppConfig` declares
no `proxy` field — so every batch, of any size, performs zero browser
launches and every job escapes with the setup exception. -/
theorem browser_never_launched (cfg : AppConfig) (ts : List Target) :
    (∃ m, browserManagerEnter cfg = EnterOutcome.raisedBeforeLaunch m) ∧
    batchBrowserLaunchCount cfg ts = 0 := by
  refine ⟨⟨_, rfl⟩, ?_⟩
  simp [batchBrowserLaunchCount, jobBrowserEvents, browserManagerEnter]

/-- C9 counterexample: the claim says an externally cancelled in-flight
job leaves its target marked `SCREENSHOT_CANCELLED`.  No such code
exists: the job's `CancelledError` is not an `Exception`
(CPython ≥ 3.8), so the result loop's `isinstance(result, Exception)`
test is false and the raw cancellation object itself is appended to the
returned list — the slot holds no `Target` at all, marked or otherwise. -/
theorem cancelled_job_unmarked_counterexample :
    screenshot_many cfgEx [targetA] [jobEnvCancelled] 0 =
      BatchOutcome.ok [BatchEntry.cancelledObj] ∧
    ¬ ∃ e : Error, screenshot_many cfgEx [targetA] [jobEnvCancelled] 0 =
        BatchOutcome.ok [BatchEntry.tgt { targetA with error := some e }] ∧
        e.code = some "SCREENSHOT_CANCELLED" := by
  constructor
  · rfl
  · rintro ⟨e, h, -⟩
    have h0 : screenshot_many cfgEx [targetA] [jobEnvCancelled] 0 =
        BatchOutcome.ok [BatchEntry.cancelledObj] := rfl
    rw [h0] at h
    simp at h

/-- C9 amended: when a job is cancelled externally while in flight, its
slot in the returned list holds the raw cancellation-exception object,
not a `Target`; the target is left unmarked (no `SCREENSHOT_CANCELLED`
error code exists anywhere in the code). -/
theorem cancelled_job_slot_is_cancellation_object (cfg : AppConfig)
    (ts : List Target) (envs : List JobEnv) (d : Nat)
    (entries : List BatchEntry)
    (hok : screenshot_many cfg ts envs d = BatchOutcome.ok entries)
    (i : Nat) (hi : i < ts.length) (hie : i < envs.length)
    (hient : i < entries.length)
    (hc : envs[i].interference = JobInterference.cancelled) :
    entries[i] = BatchEntry.cancelledObj := by
  rw [screenshot_many_slot cfg ts envs d entries hok i hi hie hient]
  simp [screenshot_with_semaphore, hc, recordResult]

theorem cancelled_job_slot_witness :
    ([BatchEntry.cancelledObj])[0] = BatchEntry.cancelledObj :=
  cancelled_job_slot_is_cancellation_object cfgEx [targetA] [jobEnvCancelled] 0
    [BatchEntry.cancelledObj] rfl 0 (by decide) (by decide) (by decide) rfl

/-- C10 counterexample: the claim says `screenshot_path` is set only if
a screenshot file was actually written and is non-empty.  On the success
path the code sets `screenshot_path` unconditionally (browser.py 183)
and merely records size 0 when `screenshot_path.exists()` is false
(browser.py 176): in a run where the file is absent after the capture
step, metadata still carries the path, with size 0 and no error. -/
theorem screenshot_path_without_file_counterexample :
    captureEnvNoFile.fileExists = false ∧
    (screenshot_target captureEnvNoFile cfgEx targetA).metadata.screenshot_path =
      some (screenshotPathFor cfgEx targetA.host) ∧
    (screenshot_target captureEnvNoFile cfgEx targetA).metadata.screenshot_size =
      some 0 ∧
    (screenshot_target captureEnvNoFile cfgEx targetA).error = none :=
  ⟨rfl, rfl, rfl, rfl⟩

/-- C10 amended: on the success path the metadata always carries
`screenshot_path = {run_dir}/screenshots/{host}.png` (with
`screenshot_size` recording 0 when the file does not exist), and
`final_url` is the URL `try_urls` accepted — in particular the
`http://` URL whenever the HTTPS attempt was not accepted and the HTTP
attempt returned a working response. -/
theorem metadata_success_fields (cfg : AppConfig) (env : CaptureEnv) (t : Target)
    (hT : ∃ s0, fetchTitle env = Except.ok s0) (hk : env.mkdirRaises = none)
    (hs : env.shotDurationMs ≤ screenshotCapMs) (hr : env.shotRaises = none) :
    (screenshot_target env cfg t).metadata.screenshot_path =
      some (screenshotPathFor cfg t.host) ∧
    (screenshot_target env cfg t).metadata.screenshot_size =
      some (if env.fileExists then env.fileSize else 0) ∧
    (screenshot_target env cfg t).metadata.final_url =
      some (try_urls env.page t.host).1 ∧
    (attemptAccepted env.page (httpsUrl t.host) = false →
      ∀ s, env.page.goto (httpUrl t.host) = GotoOutcome.ok (some s) →
        isWorkingStatus s = true →
        (∀ m, env.page.idle (httpUrl t.host) ≠ IdleOutcome.exn m) →
        (screenshot_target env cfg t).metadata.final_url =
          some (httpUrl t.host)) := by
  obtain ⟨s0, hT⟩ := hT
  have hns : ¬ screenshotCapMs < env.shotDurationMs := Nat.not_lt.mpr hs
  refine ⟨?_, ?_, ?_, ?_⟩
  · simp [screenshot_target, hT, hk, hns, hr]
  · simp [screenshot_target, hT, hk, hns, hr]
  · simp [screenshot_target, hT, hk, hns, hr]
  · intro h1 s hg hw hi
    have h2 := try_urls_second_accepted env.page t.host s h1 hg hw hi
    simp [screenshot_target, hT, hk, hns, hr, h2]

theorem metadata_success_fields_witness :
    (screenshot_target captureEnvHttpOnly cfgEx targetB).metadata.final_url =
      some (httpUrl targetB.host) :=
  (metadata_success_fields cfgEx captureEnvHttpOnly targetB
      ⟨"Example Domain", rfl⟩ rfl (by decide) rfl).2.2.2
    (by decide) 200 (by decide) (by decide)
    (by
      intro m h
      simp [captureEnvHttpOnly, captureEnvOk, pageEnvHttpOnly] at h)

end SnapRecon

